import Mathlib

/-!
Shallow embedding of `src/plugins/output/json/src/Config.cpp` (ipfixcol2 JSON
output plugin configuration parser).

The generic XML walker (`fds_xml_*`) is an external collaborator: it hands each
parser a sequence of typed children `(id, value)`.  We model a parsed XML
context as a list of `XmlCont` values.  The C++ `assert(content->type == ...)`
statements reflect the type guarantees of the XML schema tables; a child whose
id matches a case but whose payload type differs is unreachable in the real
program and falls into the `default` (unexpected-element) branch here.

C++ exceptions are modelled by `Except String`; only the message string is
observable to the orchestrator (`catch (std::exception &ex) ... ex.what()`).
Locals that the C++ code leaves uninitialized (`port`, `blocking` in the
syslog transport sub-parsers; `facility`/`severity` in the priority
sub-parser) are modelled as `Option` values initialized to `none`, so that a
read of a never-assigned local is visible as `none` in the result.
-/

/-- Ids of XML nodes, mirroring `enum params_xml_nodes`.  `FILE_PREF` renders
the source's file-prefix id. -/
inductive NodeId where
  | FMT_TFLAGS | FMT_TIMESTAMP | FMT_PROTO | FMT_UNKNOWN | FMT_OPTIONS
  | FMT_NONPRINT | FMT_OCTETASUINT | FMT_NUMERIC | FMT_BFSPLIT
  | FMT_DETAILEDINFO | FMT_TMPLTINFO
  | OUTPUT_LIST | OUTPUT_PRINT | OUTPUT_SEND | OUTPUT_SERVER
  | OUTPUT_FILE | OUTPUT_KAFKA | OUTPUT_SYSLOG
  | PRINT_NAME
  | SEND_NAME | SEND_IP | SEND_PORT | SEND_PROTO | SEND_BLOCK
  | SERVER_NAME | SERVER_PORT | SERVER_BLOCK
  | FILE_NAME | FILE_PATH | FILE_PREF | FILE_WINDOW | FILE_ALIGN | FILE_COMPRESS
  | KAFKA_NAME | KAFKA_BROKERS | KAFKA_TOPIC | KAFKA_PARTION | KAFKA_BVERSION
  | KAFKA_BLOCKING | KAFKA_PERF_TUN | KAFKA_PROPERTY | KAFKA_PROP_KEY | KAFKA_PROP_VALUE
  | SYSLOG_NAME | SYSLOG_PRI | SYSLOG_PRI_FACILITY | SYSLOG_PRI_SEVERITY
  | SYSLOG_HOSTNAME | SYSLOG_PROGRAM | SYSLOG_PROCID | SYSLOG_TRANSPORT
  | SYSLOG_TCP | SYSLOG_TCP_HOST | SYSLOG_TCP_PORT | SYSLOG_TCP_BLOCK
  | SYSLOG_UDP | SYSLOG_UDP_HOST | SYSLOG_UDP_PORT
  deriving DecidableEq, Repr

/-- One `fds_xml_cont` item: an id together with a typed payload (string,
unsigned integer, boolean, or a nested context). -/
inductive XmlCont where
  | str (id : NodeId) (s : String)
  | uint (id : NodeId) (v : Nat)
  | boolv (id : NodeId) (b : Bool)
  | ctx (id : NodeId) (children : List XmlCont)

/-- ASCII lower-casing of a single character (the effect of `tolower` used by
`strcasecmp` on ASCII input). -/
def asciiLower (c : Char) : Char :=
  if 'A' ≤ c ∧ c ≤ 'Z' then Char.ofNat (c.toNat + 32) else c

/-- Case-insensitive string equality, mirroring `strcasecmp(a, b) == 0`. -/
def strcaseeq (a b : String) : Bool :=
  a.data.map asciiLower == b.data.map asciiLower

/-- `Config::check_or`: match `value` case-insensitively against exactly two
accepted words, else throw a labeled `invalid_argument`. -/
def check_or (elem : String) (value : String) (val_true val_false : String) :
    Except String Bool :=
  if strcaseeq value val_true then .ok true
  else if strcaseeq value val_false then .ok false
  else .error ("Unexpected parameter of the element <" ++ elem ++ "> (expected " ++ "'"
      ++ val_true ++ "' or '" ++ val_false ++ "')")

/-- Decimal digit test and conversion helpers. -/
def digitsToNat : List Char → Nat → Nat
  | [], acc => acc
  | c :: cs, acc => digitsToNat cs (acc * 10 + (c.toNat - 48))

/-- Is `c` one of the 10 decimal digits (octet field of an IPv4 literal)? -/
def isDecDigit (c : Char) : Bool := '0' ≤ c ∧ c ≤ '9'

/-- Split a string on a separator character. -/
def splitOnChar (sep : Char) (cs : List Char) : List (List Char) :=
  cs.foldr (fun c acc =>
    match acc with
    | [] => if c = sep then [[], []] else [[c]]
    | g :: gs => if c = sep then [] :: (g :: gs) else (c :: g) :: gs) [[]]

/-- Modelled from the spec: `is_ip_literal` / `Config::check_ip` delegates to
the external libc `inet_pton` for both address families (the libc is not part
of this repository).  Modelled as: an IPv4 dotted-quad of exactly four decimal
fields, each of 1-3 digits with value at most 255, or an IPv6-looking literal
made of hexadecimal digits, colons and dots containing at least one colon.
No claim in this development depends on the exact accepted set. -/
def check_ip (ip_addr : String) : Bool :=
  let cs := ip_addr.data
  let v4 :=
    let fields := splitOnChar '.' cs
    fields.length == 4 &&
      fields.all (fun f =>
        !f.isEmpty && f.length ≤ 3 && f.all isDecDigit && digitsToNat f 0 ≤ 255)
  let v6 :=
    cs.contains ':' &&
      !cs.isEmpty &&
      cs.all (fun c => isDecDigit c || c = ':' || c = '.'
        || ('a' ≤ c && c ≤ 'f') || ('A' ≤ c && c ≤ 'F'))
  v4 || v6

/-- `Config::is_syslog_ascii`: every character code point in [33, 126]
(RFC 5424 printable range). -/
def is_syslog_ascii (str : String) : Bool :=
  str.data.all (fun ch => 33 ≤ ch.toNat ∧ ch.toNat ≤ 126)

/-- `SYSLOG_*` bounds and defaults from the source macros. -/
def SYSLOG_FACILITY_MAX : Nat := 23

def SYSLOG_FACILITY_DEF : Nat := 16

def SYSLOG_SEVERITY_MAX : Nat := 7

def SYSLOG_SEVERITY_DEF : Nat := 6

def SYSLOG_APPNAME_MAX_LEN : Nat := 48

/-- librdkafka sentinel `RD_KAFKA_PARTITION_UA` ("unassigned"). -/
def RD_KAFKA_PARTITION_UA : Int := -1

/-- `struct cfg_print`. -/
structure cfg_print where
  name : String
  deriving DecidableEq, Repr

/-- `struct cfg_server`. -/
structure cfg_server where
  name : String
  port : Nat
  blocking : Bool
  deriving DecidableEq, Repr

/-- Transport protocol of a `send` output. -/
inductive send_proto where
  | SEND_PROTO_UDP
  | SEND_PROTO_TCP
  deriving DecidableEq, Repr

/-- `struct cfg_send`.  The `blocking` member is not pre-seeded in
`Config::parse_send` and its header-side initializer is not part of the
sources; it is modelled as `Option Bool`, `none` when never assigned. -/
structure cfg_send where
  name : String
  addr : String
  port : Nat
  proto : send_proto
  blocking : Option Bool
  deriving DecidableEq, Repr

/-- Compression algorithm of a `file` output. -/
inductive calg where
  | NONE
  | GZIP
  deriving DecidableEq, Repr

/-- `struct cfg_file` (`pref` renders the file-prefix member). -/
structure cfg_file where
  name : String
  path_pattern : String
  pref : String
  window_size : Nat
  window_align : Bool
  m_calg : calg
  deriving DecidableEq, Repr

/-- `struct cfg_kafka`.  `properties` is the `std::map<std::string,
std::string>` member, modelled as an insertion-ordered association list with
non-overwriting insert (`emplace`); the key-to-value mapping it denotes
coincides with the C++ map's. -/
structure cfg_kafka where
  name : String
  brokers : String
  topic : String
  partition : Int
  broker_fallback : String
  blocking : Bool
  perf_tuning : Bool
  properties : List (String × String)
  deriving DecidableEq, Repr

/-- `UdpSyslogSocket(hostname, port)`: `port` is `none` when the local it was
copied from was never assigned. -/
structure UdpSyslogSocket where
  hostname : String
  port : Option Nat
  deriving DecidableEq, Repr

/-- `TcpSyslogSocket(hostname, port, blocking)`: `port` and `blocking` are
`none` when the locals they were copied from were never assigned. -/
structure TcpSyslogSocket where
  hostname : String
  port : Option Nat
  blocking : Option Bool
  deriving DecidableEq, Repr

/-- A constructed syslog socket (the dynamic type behind
`std::unique_ptr<SyslogSocket>`). -/
inductive SyslogSocket where
  | tcp (s : TcpSyslogSocket)
  | udp (s : UdpSyslogSocket)
  deriving DecidableEq, Repr

/-- `enum syslog_hostname`. -/
inductive syslog_hostname where
  | NONE
  | LOCAL
  deriving DecidableEq, Repr

/-- `struct syslog_prority` (sic). -/
structure syslog_prority where
  facility : Nat
  severity : Nat
  deriving DecidableEq, Repr

/-- `struct cfg_syslog`.  `transport` models the `unique_ptr`, `none` being
the null pointer. -/
structure cfg_syslog where
  name : String
  hostname : syslog_hostname
  program : String
  proc_id : Bool
  priority : syslog_prority
  transport : Option SyslogSocket
  deriving DecidableEq, Repr

/-- The six output collections of `Config` (`outputs` member). -/
structure Outputs where
  prints : List cfg_print
  servers : List cfg_server
  sends : List cfg_send
  files : List cfg_file
  kafkas : List cfg_kafka
  syslogs : List cfg_syslog
  deriving DecidableEq, Repr

/-- Formatting flags of `Config` (`format` member). -/
structure FormatOptions where
  tcp_flags : Bool
  timestamp : Bool
  proto : Bool
  ignore_unknown : Bool
  ignore_options : Bool
  white_spaces : Bool
  numeric_names : Bool
  octets_as_uint : Bool
  split_biflow : Bool
  detailed_info : Bool
  template_info : Bool
  deriving DecidableEq, Repr

/-- The configuration object: format options plus output collections. -/
structure Config where
  format : FormatOptions
  outputs : Outputs
  deriving DecidableEq, Repr

/-- `Config::default_set` for the format flags. -/
def default_format : FormatOptions :=
  { tcp_flags := true, timestamp := true, proto := true,
    ignore_unknown := true, ignore_options := true, white_spaces := true,
    numeric_names := false, octets_as_uint := true, split_biflow := false,
    detailed_info := false, template_info := false }

/-- `Config::default_set` for the output collections (all cleared). -/
def default_outputs : Outputs :=
  { prints := [], servers := [], sends := [], files := [], kafkas := [],
    syslogs := [] }

/-- Loop body of `Config::parse_print`: dispatch on each child's id. -/
def parse_print_loop : cfg_print → List XmlCont → Except String cfg_print
  | out, [] => .ok out
  | out, (.str .PRINT_NAME s) :: rest => parse_print_loop { out with name := s } rest
  | _, _ :: _ => .error ("Unexpected element within <print>!")

/-- `Config::parse_print` (the append into `outputs.prints` is performed by
the caller, mirroring the push at the end of the C++ function). -/
def parse_print (cs : List XmlCont) : Except String cfg_print :=
  match parse_print_loop { name := "" } cs with
  | .error e => .error e
  | .ok out =>
    if out.name = "" then .error ("Name of a <print> output must be defined!")
    else .ok out

/-- Loop body of `Config::parse_server`. -/
def parse_server_loop : cfg_server → List XmlCont → Except String cfg_server
  | out, [] => .ok out
  | out, (.str .SERVER_NAME s) :: rest => parse_server_loop { out with name := s } rest
  | out, (.uint .SERVER_PORT v) :: rest =>
    if v > 65535 ∨ v = 0 then .error ("Invalid port number of a <server> output!")
    else parse_server_loop { out with port := v } rest
  | out, (.boolv .SERVER_BLOCK b) :: rest => parse_server_loop { out with blocking := b } rest
  | _, _ :: _ => .error ("Unexpected element within <server>!")

/-- `Config::parse_server`. -/
def parse_server (cs : List XmlCont) : Except String cfg_server :=
  match parse_server_loop { name := "", port := 0, blocking := false } cs with
  | .error e => .error e
  | .ok out =>
    if out.name = "" then .error ("Name of a <server> output must be defined!")
    else .ok out

/-- Loop body of `Config::parse_send`. -/
def parse_send_loop : cfg_send → List XmlCont → Except String cfg_send
  | out, [] => .ok out
  | out, (.str .SEND_NAME s) :: rest => parse_send_loop { out with name := s } rest
  | out, (.str .SEND_IP s) :: rest => parse_send_loop { out with addr := s } rest
  | out, (.uint .SEND_PORT v) :: rest =>
    if v > 65535 ∨ v = 0 then .error ("Invalid port number of a <send> output!")
    else parse_send_loop { out with port := v } rest
  | out, (.str .SEND_PROTO s) :: rest =>
    match check_or "protocol" s "UDP" "TCP" with
    | .error e => .error e
    | .ok b =>
      parse_send_loop
        { out with proto := if b then .SEND_PROTO_UDP else .SEND_PROTO_TCP } rest
  | out, (.boolv .SEND_BLOCK b) :: rest => parse_send_loop { out with blocking := some b } rest
  | _, _ :: _ => .error ("Unexpected element within <send>!")

/-- Initial `cfg_send` of `Config::parse_send` (defaults set before the loop). -/
def cfg_send_init : cfg_send :=
  { name := "", addr := "127.0.0.1", port := 4739, proto := .SEND_PROTO_UDP,
    blocking := none }

/-- `Config::parse_send`. -/
def parse_send (cs : List XmlCont) : Except String cfg_send :=
  match parse_send_loop cfg_send_init cs with
  | .error e => .error e
  | .ok out =>
    if out.name = "" then .error ("Name of a <send> output must be defined!")
    else if out.addr = "" ∨ ¬ check_ip out.addr then
      .error ("Value of the element <ip> of the output <send> " ++ "'" ++ out.name
        ++ "' is not a valid IPv4/IPv6 address")
    else .ok out

/-- Loop body of `Config::parse_file`. -/
def parse_file_loop : cfg_file → List XmlCont → Except String cfg_file
  | out, [] => .ok out
  | out, (.str .FILE_NAME s) :: rest => parse_file_loop { out with name := s } rest
  | out, (.str .FILE_PATH s) :: rest => parse_file_loop { out with path_pattern := s } rest
  | out, (.str .FILE_PREF s) :: rest => parse_file_loop { out with pref := s } rest
  | out, (.uint .FILE_WINDOW v) :: rest =>
    if v > 4294967295 then
      .error ("Windows size must be between 0..4294967295!")
    else parse_file_loop { out with window_size := v } rest
  | out, (.boolv .FILE_ALIGN b) :: rest => parse_file_loop { out with window_align := b } rest
  | out, (.str .FILE_COMPRESS s) :: rest =>
    if strcaseeq s "none" then parse_file_loop { out with m_calg := .NONE } rest
    else if strcaseeq s "gzip" then parse_file_loop { out with m_calg := .GZIP } rest
    else .error ("Unknown compression algorithm " ++ "'" ++ s ++ "'")
  | _, _ :: _ => .error ("Unexpected element within <file>!")

/-- Initial `cfg_file` of `Config::parse_file`. -/
def cfg_file_init : cfg_file :=
  { name := "", path_pattern := "", pref := "", window_size := 300,
    window_align := true, m_calg := .NONE }

/-- `Config::parse_file`. -/
def parse_file (cs : List XmlCont) : Except String cfg_file :=
  match parse_file_loop cfg_file_init cs with
  | .error e => .error e
  | .ok out =>
    if out.name = "" then .error ("Name of a <file> output must be defined!")
    else if out.path_pattern = "" then
      .error ("Element <path> of the output " ++ "'" ++ out.name ++ "' must be defined!")
    else .ok out

/-- Insert into `properties` with `std::map::emplace` semantics: if the key is
already present the insert does nothing (first-write-wins). -/
def propEmplace (m : List (String × String)) (k v : String) : List (String × String) :=
  if m.any (fun p => p.1 = k) then m else m ++ [(k, v)]

/-- The mapping denoted by the association list (`std::map::find`). -/
def propLookup (m : List (String × String)) (k : String) : Option String :=
  match m.find? (fun p => p.1 = k) with
  | none => none
  | some p => some p.2

/-- Loop body of `Config::parse_kafka_property`: collects the local
`key`/`value` strings (both initialized empty). -/
def kafka_property_loop : String → String → List XmlCont → Except String (String × String)
  | key, value, [] => .ok (key, value)
  | _, value, (.str .KAFKA_PROP_KEY s) :: rest => kafka_property_loop s value rest
  | key, _, (.str .KAFKA_PROP_VALUE s) :: rest => kafka_property_loop key s rest
  | _, _, _ :: _ => .error ("Unexpected element within <property>!")

/-- `Config::parse_kafka_property`: fills `kafka.properties`. -/
def parse_kafka_property (kafka : cfg_kafka) (cs : List XmlCont) : Except String cfg_kafka :=
  match kafka_property_loop "" "" cs with
  | .error e => .error e
  | .ok (key, value) =>
    if key = "" then .error ("Property key of a <kafka> output cannot be empty!")
    else .ok { kafka with properties := propEmplace kafka.properties key value }

/-- Characters treated as whitespace by `isspace` in the C locale (skipped by
both `sscanf` numeric conversions and `istream` numeric extraction). -/
def isCppSpace (c : Char) : Bool :=
  c = ' ' || c = '\t' || c = '\n' || c = '\x0b' || c = '\x0c' || c = '\x0d'

/-- Hexadecimal digit test. -/
def isHexDigit (c : Char) : Bool :=
  isDecDigit c || ('a' ≤ c && c ≤ 'f') || ('A' ≤ c && c ≤ 'F')

/-- Octal digit test. -/
def isOctDigit (c : Char) : Bool := '0' ≤ c && c ≤ '7'

/-- Value of a hexadecimal digit. -/
def hexVal (c : Char) : Nat :=
  if isDecDigit c then c.toNat - 48
  else if 'a' ≤ c && c ≤ 'f' then c.toNat - 87
  else c.toNat - 55

/-- Accumulate digits in a given base. -/
def digitsToNatBase (base : Nat) : List Char → Nat → Nat
  | [], acc => acc
  | c :: cs, acc => digitsToNatBase base cs (acc * base + hexVal c)

/-- The `sscanf` conversion `%i` (base-0 integer scan): skip whitespace, an
optional sign, then a hexadecimal (`0x`/`0X` prefix), octal (`0` prefix) or
decimal digit run.  Returns the value and the unconsumed characters, or `none`
on a matching failure.  The conversion in the source is `%SCNi32`; behaviour
on values outside the `int32_t` range is undefined in C and is not modelled
(theorems about accepted values carry an explicit range bound). -/
def scan_i (cs : List Char) : Option (Int × List Char) :=
  let cs1 := cs.dropWhile isCppSpace
  let signRes : Bool × List Char :=
    match cs1 with
    | '+' :: r => (false, r)
    | '-' :: r => (true, r)
    | _ => (false, cs1)
  let neg := signRes.1
  let cs2 := signRes.2
  let mkRes : Nat → List Char → Option (Int × List Char) := fun n rest =>
    some (if neg then -(Int.ofNat n) else Int.ofNat n, rest)
  match cs2 with
  | '0' :: x :: r =>
    if x = 'x' || x = 'X' then
      let ds := r.takeWhile isHexDigit
      if ds.isEmpty then none
      else mkRes (digitsToNatBase 16 ds 0) (r.dropWhile isHexDigit)
    else
      let ds := (x :: r).takeWhile isOctDigit
      mkRes (digitsToNatBase 8 ds 0) ((x :: r).dropWhile isOctDigit)
  | '0' :: [] => mkRes 0 []
  | _ =>
    let ds := cs2.takeWhile isDecDigit
    if ds.isEmpty then none
    else mkRes (digitsToNat ds 0) (cs2.dropWhile isDecDigit)

/-- The partition scan of `Config::parse_kafka`:
`sscanf(s, "%" SCNi32 "%c", &value, &aux) != 1 || value < 0` rejects the
string; otherwise `value` is the partition. -/
def kafka_scan_partition (s : String) : Except String Int :=
  match scan_i s.data with
  | none => .error ("Invalid partition number of a <kafka> output!")
  | some (v, rest) =>
    if rest.isEmpty then
      if v < 0 then .error ("Invalid partition number of a <kafka> output!")
      else .ok v
    else .error ("Invalid partition number of a <kafka> output!")

/-- `istream >> int` extraction (`num_get`, C++11): skip whitespace, optional
sign, a non-empty decimal digit run; overflow beyond the 32-bit `int` range
sets `failbit` (modelled as `none`).  Returns the value and remaining buffer;
`eofbit` after the extraction is `rest = []`. -/
def extract_int (cs : List Char) : Option (Int × List Char) :=
  let cs1 := cs.dropWhile isCppSpace
  let signRes : Bool × List Char :=
    match cs1 with
    | '+' :: r => (false, r)
    | '-' :: r => (true, r)
    | _ => (false, cs1)
  let neg := signRes.1
  let cs2 := signRes.2
  let ds := cs2.takeWhile isDecDigit
  if ds.isEmpty then none
  else
    let n : Int := Int.ofNat (digitsToNat ds 0)
    let v : Int := if neg then -n else n
    if v < -2147483648 ∨ 2147483647 < v then none
    else some (v, cs2.dropWhile isDecDigit)

/-- The `idx != 0 && parser.get() != '.'` step of the `parse_version` loop:
on every iteration but the first, one character is read and must be the dot
separator. -/
def pv_dot (first : Bool) (buf : List Char) : Option (List Char) :=
  if first then some buf
  else
    match buf with
    | '.' :: r => some r
    | _ => none

/-- The `for (idx = ...)` loop of `parse_version`.  `fuel` is the number of
remaining iterations (`FIELDS_MAX - idx`), `first` is `idx == 0`, `buf` the
unread stream characters and `acc` the fields stored so far.  The loop exits
early when `eofbit` is set, which — in every reachable state — happens exactly
when the previous extraction consumed the whole buffer. -/
def pv_go : Nat → Bool → List Char → List Int → Option (List Int)
  | 0, _, buf, acc => if buf.isEmpty then some acc else none
  | fuel + 1, first, buf, acc =>
    if ¬ first ∧ buf.isEmpty then some acc
    else
      match pv_dot first buf with
      | none => none
      | some b1 =>
        match extract_int b1 with
        | none => none
        | some (v, rest) =>
          if v < 0 then none else pv_go fuel false rest (acc ++ [v])

/-- `parse_version` (free function at the end of `Config.cpp`): `some
[v0, v1, v2, v3]` models `IPX_OK` with the filled `version` array (fields
beyond those supplied stay `0`), `none` models `IPX_ERR_FORMAT`. -/
def parse_version (str : String) : Option (List Int) :=
  match pv_go 4 true str.data [] with
  | none => none
  | some acc =>
    if acc.length < 2 then none
    else some (acc ++ List.replicate (4 - acc.length) 0)

/-- Loop body of `Config::parse_kafka`. -/
def parse_kafka_loop : cfg_kafka → List XmlCont → Except String cfg_kafka
  | out, [] => .ok out
  | out, (.str .KAFKA_NAME s) :: rest => parse_kafka_loop { out with name := s } rest
  | out, (.str .KAFKA_BROKERS s) :: rest => parse_kafka_loop { out with brokers := s } rest
  | out, (.str .KAFKA_TOPIC s) :: rest => parse_kafka_loop { out with topic := s } rest
  | out, (.str .KAFKA_PARTION s) :: rest =>
    if strcaseeq s "unassigned" then
      parse_kafka_loop { out with partition := RD_KAFKA_PARTITION_UA } rest
    else
      match kafka_scan_partition s with
      | .error e => .error e
      | .ok v => parse_kafka_loop { out with partition := v } rest
  | out, (.str .KAFKA_BVERSION s) :: rest =>
    parse_kafka_loop { out with broker_fallback := s } rest
  | out, (.boolv .KAFKA_BLOCKING b) :: rest => parse_kafka_loop { out with blocking := b } rest
  | out, (.boolv .KAFKA_PERF_TUN b) :: rest =>
    parse_kafka_loop { out with perf_tuning := b } rest
  | out, (.ctx .KAFKA_PROPERTY sub) :: rest =>
    match parse_kafka_property out sub with
    | .error e => .error e
    | .ok out2 => parse_kafka_loop out2 rest
  | _, _ :: _ => .error ("Unexpected element within <kafka>!")

/-- Initial `cfg_kafka` of `Config::parse_kafka`. -/
def cfg_kafka_init : cfg_kafka :=
  { name := "", brokers := "", topic := "", partition := RD_KAFKA_PARTITION_UA,
    broker_fallback := "", blocking := false, perf_tuning := true,
    properties := [] }

/-- `Config::parse_kafka`: loop, then the post-loop validity checks (note:
there is no emptiness check of `name` here). -/
def parse_kafka (cs : List XmlCont) : Except String cfg_kafka :=
  match parse_kafka_loop cfg_kafka_init cs with
  | .error e => .error e
  | .ok out =>
    if out.brokers = "" then .error ("List of <kafka> brokers must be specified!")
    else if out.topic = "" then .error ("Topic of <kafka> output must be specified!")
    else if out.broker_fallback ≠ "" ∧ parse_version out.broker_fallback = none then
      .error ("Broker version of a <kafka> output is not invalid!")
    else .ok out

/-- Loop body of `Config::parse_syslog_udp` over the locals `hostname`
(default-constructed empty) and `port` (uninitialized, hence `Option`). -/
def syslog_udp_loop : String → Option Nat → List XmlCont → Except String (String × Option Nat)
  | host, port, [] => .ok (host, port)
  | _, port, (.str .SYSLOG_UDP_HOST s) :: rest => syslog_udp_loop s port rest
  | host, _, (.uint .SYSLOG_UDP_PORT v) :: rest =>
    if v > 65535 ∨ v = 0 then .error ("Invalid port number of a <udp> syslog!")
    else syslog_udp_loop host (some v) rest
  | _, _, _ :: _ => .error ("Unexpected element within <udp> syslog!")

/-- `Config::parse_syslog_udp`: the socket is constructed from the locals
whether or not they were ever assigned. -/
def parse_syslog_udp (cs : List XmlCont) : Except String UdpSyslogSocket :=
  match syslog_udp_loop "" none cs with
  | .error e => .error e
  | .ok (host, port) => .ok { hostname := host, port := port }

/-- Loop body of `Config::parse_syslog_tcp` over the locals `hostname`,
`port` and `blocking` (the latter two uninitialized, hence `Option`). -/
def syslog_tcp_loop : String → Option Nat → Option Bool → List XmlCont →
    Except String (String × Option Nat × Option Bool)
  | host, port, block, [] => .ok (host, port, block)
  | _, port, block, (.str .SYSLOG_TCP_HOST s) :: rest => syslog_tcp_loop s port block rest
  | host, _, block, (.uint .SYSLOG_TCP_PORT v) :: rest =>
    if v > 65535 ∨ v = 0 then .error ("Invalid port number of a <tcp> syslog!")
    else syslog_tcp_loop host (some v) block rest
  | host, port, _, (.boolv .SYSLOG_TCP_BLOCK b) :: rest =>
    syslog_tcp_loop host port (some b) rest
  | _, _, _, _ :: _ => .error ("Unexpected element within <tcp> syslog!")

/-- `Config::parse_syslog_tcp`: the socket is constructed from the locals
whether or not they were ever assigned. -/
def parse_syslog_tcp (cs : List XmlCont) : Except String TcpSyslogSocket :=
  match syslog_tcp_loop "" none none cs with
  | .error e => .error e
  | .ok (host, port, block) => .ok { hostname := host, port := port, blocking := block }

/-- Loop body of `Config::parse_syslog_transport`: the local `socket` starts
null (`none`); a second child while it is already set is an error. -/
def syslog_transport_loop : Option SyslogSocket → List XmlCont →
    Except String (Option SyslogSocket)
  | sock, [] => .ok sock
  | sock, c :: rest =>
    if sock.isSome then .error ("Multiple syslog transport types are not allowed!")
    else
      match c with
      | .ctx .SYSLOG_TCP sub =>
        match parse_syslog_tcp sub with
        | .error e => .error e
        | .ok t => syslog_transport_loop (some (.tcp t)) rest
      | .ctx .SYSLOG_UDP sub =>
        match parse_syslog_udp sub with
        | .error e => .error e
        | .ok u => syslog_transport_loop (some (.udp u)) rest
      | _ => .error ("Unexpected element within <transport>!")

/-- `Config::parse_syslog_transport`: overwrites `syslog.transport` with the
loop's socket (possibly still null). -/
def parse_syslog_transport (syslog : cfg_syslog) (cs : List XmlCont) :
    Except String cfg_syslog :=
  match syslog_transport_loop none cs with
  | .error e => .error e
  | .ok sock => .ok { syslog with transport := sock }

/-- Loop body of `Config::parse_syslog_priority` over the local `values`
(uninitialized fields, hence `Option`) and the two seen flags (`isSome`). -/
def syslog_priority_loop : Option Nat → Option Nat → List XmlCont →
    Except String (Option Nat × Option Nat)
  | fac, sev, [] => .ok (fac, sev)
  | _, sev, (.uint .SYSLOG_PRI_FACILITY v) :: rest => syslog_priority_loop (some v) sev rest
  | fac, _, (.uint .SYSLOG_PRI_SEVERITY v) :: rest => syslog_priority_loop fac (some v) rest
  | _, _, _ :: _ => .error ("Unexpected element within <priority>!")

/-- `Config::parse_syslog_priority`: both fields must have been seen; then
the facility and severity range checks, in that order. -/
def parse_syslog_priority (syslog : cfg_syslog) (cs : List XmlCont) :
    Except String cfg_syslog :=
  match syslog_priority_loop none none cs with
  | .error e => .error e
  | .ok (fac, sev) =>
    match fac, sev with
    | some f, some s =>
      if f > SYSLOG_FACILITY_MAX then
        .error ("Syslog facility is out of range [0..23]")
      else if s > SYSLOG_SEVERITY_MAX then
        .error ("Syslog severity is out of range [0..7]")
      else .ok { syslog with priority := { facility := f, severity := s } }
    | _, _ => .error ("Both syslog facility and severity must be set!")

/-- Loop body of `Config::parse_syslog`. -/
def parse_syslog_loop : cfg_syslog → List XmlCont → Except String cfg_syslog
  | out, [] => .ok out
  | out, (.str .SYSLOG_NAME s) :: rest => parse_syslog_loop { out with name := s } rest
  | out, (.str .SYSLOG_HOSTNAME s) :: rest =>
    if strcaseeq s "none" then parse_syslog_loop { out with hostname := .NONE } rest
    else if strcaseeq s "local" then parse_syslog_loop { out with hostname := .LOCAL } rest
    else .error ("Unknown syslog hostname type " ++ "'" ++ s ++ "'")
  | out, (.str .SYSLOG_PROGRAM s) :: rest => parse_syslog_loop { out with program := s } rest
  | out, (.boolv .SYSLOG_PROCID b) :: rest => parse_syslog_loop { out with proc_id := b } rest
  | out, (.ctx .SYSLOG_PRI sub) :: rest =>
    match parse_syslog_priority out sub with
    | .error e => .error e
    | .ok out2 => parse_syslog_loop out2 rest
  | out, (.ctx .SYSLOG_TRANSPORT sub) :: rest =>
    match parse_syslog_transport out sub with
    | .error e => .error e
    | .ok out2 => parse_syslog_loop out2 rest
  | _, _ :: _ => .error ("Unexpected element within <syslog>!")

/-- Initial `cfg_syslog` of `Config::parse_syslog`. -/
def cfg_syslog_init : cfg_syslog :=
  { name := "", hostname := .NONE, program := "", proc_id := false,
    priority := { facility := SYSLOG_FACILITY_DEF, severity := SYSLOG_SEVERITY_DEF },
    transport := none }

/-- `Config::parse_syslog`: loop, then the transport / program checks (note:
there is no emptiness check of `name` here). -/
def parse_syslog (cs : List XmlCont) : Except String cfg_syslog :=
  match parse_syslog_loop cfg_syslog_init cs with
  | .error e => .error e
  | .ok out =>
    if out.transport.isNone then .error ("Syslog transport type must be defined!")
    else if ¬ is_syslog_ascii out.program then
      .error ("Invalid syslog identifier " ++ "'" ++ out.name ++ "'")
    else if out.program.length > SYSLOG_APPNAME_MAX_LEN then
      .error ("Too long syslog identifier " ++ "'" ++ out.name ++ "'")
    else .ok out

/-- `Config::parse_outputs`: each successfully parsed output is appended to
its collection (the `push_back` at the end of the per-kind parser). -/
def parse_outputs_loop : Outputs → List XmlCont → Except String Outputs
  | outs, [] => .ok outs
  | outs, (.ctx .OUTPUT_PRINT sub) :: rest =>
    match parse_print sub with
    | .error e => .error e
    | .ok p => parse_outputs_loop { outs with prints := outs.prints ++ [p] } rest
  | outs, (.ctx .OUTPUT_SEND sub) :: rest =>
    match parse_send sub with
    | .error e => .error e
    | .ok p => parse_outputs_loop { outs with sends := outs.sends ++ [p] } rest
  | outs, (.ctx .OUTPUT_FILE sub) :: rest =>
    match parse_file sub with
    | .error e => .error e
    | .ok p => parse_outputs_loop { outs with files := outs.files ++ [p] } rest
  | outs, (.ctx .OUTPUT_SERVER sub) :: rest =>
    match parse_server sub with
    | .error e => .error e
    | .ok p => parse_outputs_loop { outs with servers := outs.servers ++ [p] } rest
  | outs, (.ctx .OUTPUT_KAFKA sub) :: rest =>
    match parse_kafka sub with
    | .error e => .error e
    | .ok p => parse_outputs_loop { outs with kafkas := outs.kafkas ++ [p] } rest
  | outs, (.ctx .OUTPUT_SYSLOG sub) :: rest =>
    match parse_syslog sub with
    | .error e => .error e
    | .ok p => parse_outputs_loop { outs with syslogs := outs.syslogs ++ [p] } rest
  | _, _ :: _ => .error ("Unexpected element within <outputs>!")

/-- `Config::parse_params`: format-option fields and the outputs container,
threading the object under construction. -/
def parse_params_loop : Config → List XmlCont → Except String Config
  | cfg, [] => .ok cfg
  | cfg, (.str .FMT_TFLAGS s) :: rest =>
    match check_or "tcpFlags" s "formatted" "raw" with
    | .error e => .error e
    | .ok b => parse_params_loop { cfg with format.tcp_flags := b } rest
  | cfg, (.str .FMT_TIMESTAMP s) :: rest =>
    match check_or "timestamp" s "formatted" "unix" with
    | .error e => .error e
    | .ok b => parse_params_loop { cfg with format.timestamp := b } rest
  | cfg, (.str .FMT_PROTO s) :: rest =>
    match check_or "protocol" s "formatted" "raw" with
    | .error e => .error e
    | .ok b => parse_params_loop { cfg with format.proto := b } rest
  | cfg, (.boolv .FMT_UNKNOWN b) :: rest =>
    parse_params_loop { cfg with format.ignore_unknown := b } rest
  | cfg, (.boolv .FMT_OPTIONS b) :: rest =>
    parse_params_loop { cfg with format.ignore_options := b } rest
  | cfg, (.boolv .FMT_NONPRINT b) :: rest =>
    parse_params_loop { cfg with format.white_spaces := b } rest
  | cfg, (.boolv .FMT_NUMERIC b) :: rest =>
    parse_params_loop { cfg with format.numeric_names := b } rest
  | cfg, (.boolv .FMT_OCTETASUINT b) :: rest =>
    parse_params_loop { cfg with format.octets_as_uint := b } rest
  | cfg, (.boolv .FMT_BFSPLIT b) :: rest =>
    parse_params_loop { cfg with format.split_biflow := b } rest
  | cfg, (.boolv .FMT_DETAILEDINFO b) :: rest =>
    parse_params_loop { cfg with format.detailed_info := b } rest
  | cfg, (.boolv .FMT_TMPLTINFO b) :: rest =>
    parse_params_loop { cfg with format.template_info := b } rest
  | cfg, (.ctx .OUTPUT_LIST sub) :: rest =>
    match parse_outputs_loop cfg.outputs sub with
    | .error e => .error e
    | .ok outs => parse_params_loop { cfg with outputs := outs } rest
  | _, _ :: _ => .error ("Unexpected element within <params>!")

/-- The duplicate-name scan of `Config::check_validity` (`check_and_add`
folded over a list of names; `seen` models the `std::set` contents). -/
def check_names : List String → List String → Except String Unit
  | _, [] => .ok ()
  | seen, n :: rest =>
    if n ∈ seen then
      .error ("Multiple outputs with the same name " ++ "'" ++ n ++ "'!")
    else check_names (n :: seen) rest

/-- Every configured output name, in the order `check_validity` visits them:
prints, sends, servers, files, kafkas, syslogs. -/
def all_output_names (o : Outputs) : List String :=
  o.prints.map cfg_print.name ++ o.sends.map cfg_send.name
    ++ o.servers.map cfg_server.name ++ o.files.map cfg_file.name
    ++ o.kafkas.map cfg_kafka.name ++ o.syslogs.map cfg_syslog.name

/-- Total number of configured outputs across the six kinds. -/
def outputCount (o : Outputs) : Nat :=
  o.prints.length + o.servers.length + o.sends.length + o.files.length
    + o.kafkas.length + o.syslogs.length

/-- `Config::check_validity`. -/
def check_validity (o : Outputs) : Except String Unit :=
  if outputCount o = 0 then .error ("At least one output must be defined!")
  else if o.prints.length > 1 then .error ("Multiple <print> outputs are not allowed!")
  else check_names [] (all_output_names o)

/-- `Config::Config` from the already-parsed root context onward (creating
the XML parser and parsing the document text are the external `fds_xml`
collaborator; its failure is likewise reported with the same prefix).  Every
error thrown beneath `parse_params`/`check_validity` is wrapped into the
single diagnostic prefixed "Failed to parse the configuration: ". -/
def Config.construct (params_ctx : List XmlCont) : Except String Config :=
  let init : Config := { format := default_format, outputs := default_outputs }
  match parse_params_loop init params_ctx with
  | .error e => .error ("Failed to parse the configuration: " ++ e)
  | .ok cfg =>
    match check_validity cfg.outputs with
    | .error e => .error ("Failed to parse the configuration: " ++ e)
    | .ok _ => .ok cfg

theorem check_names_ok_iff (l : List String) : ∀ seen,
    check_names seen l = .ok () ↔ (l.Nodup ∧ ∀ n ∈ l, n ∉ seen) := by
  induction l with
  | nil => intro seen; simp [check_names]
  | cons a t ih =>
    intro seen
    rw [check_names]
    by_cases h : a ∈ seen
    · rw [if_pos h]
      constructor
      · intro hc; cases hc
      · rintro ⟨-, hall⟩
        exact absurd h (hall a (List.mem_cons_self a t))
    · rw [if_neg h, ih]
      simp only [List.nodup_cons, List.mem_cons]
      constructor
      · rintro ⟨hnd, hmem⟩
        refine ⟨⟨fun hat => (hmem a hat) (Or.inl rfl), hnd⟩, ?_⟩
        · rintro n (rfl | hnt)
          · exact h
          · intro hns
            exact (hmem n hnt) (Or.inr hns)
      · rintro ⟨⟨hat, hnd⟩, hall⟩
        refine ⟨hnd, fun n hnt => ?_⟩
        rintro (rfl | hns)
        · exact hat hnt
        · exact (hall n (Or.inr hnt)) hns

/-- Claim C2: the cross-output validator accepts exactly when the total
output count over the six kinds is nonzero, at most one print output exists,
and the names accumulated over the kinds in the fixed order print, send,
server, file, kafka, syslog (the order of `all_output_names`) are pairwise
distinct; it fails otherwise. -/
theorem c2_check_validity_iff (o : Outputs) :
    check_validity o = .ok () ↔
      outputCount o ≠ 0 ∧ o.prints.length ≤ 1 ∧ (all_output_names o).Nodup := by
  unfold check_validity
  by_cases h0 : outputCount o = 0
  · simp [h0]
  · rw [if_neg h0]
    by_cases h1 : o.prints.length > 1
    · rw [if_pos h1]
      constructor
      · intro hc; cases hc
      · rintro ⟨-, hle, -⟩
        exact absurd h1 (Nat.not_lt.mpr hle)
    · rw [if_neg h1, check_names_ok_iff]
      simp [h0, Nat.le_of_not_lt h1]

/-- Claim C3: from the parsed root context, construction either returns a
configuration that passes the cross-output validator, or returns the single
wrapped diagnostic with the prefix "Failed to parse the configuration: "
around the originating inner message; no partially built configuration is
ever returned. -/
theorem c3_construct_all_or_nothing (cs : List XmlCont) :
    (∃ cfg, Config.construct cs = .ok cfg ∧ check_validity cfg.outputs = .ok ()) ∨
      ∃ inner, Config.construct cs = .error ("Failed to parse the configuration: " ++ inner) := by
  unfold Config.construct
  cases hp : parse_params_loop { format := default_format, outputs := default_outputs } cs with
  | error e => exact .inr ⟨e, by simp [hp]⟩
  | ok cfg =>
    cases hv : check_validity cfg.outputs with
    | error e => exact .inr ⟨e, by simp [hp, hv]⟩
    | ok u => cases u; exact .inl ⟨cfg, by simp [hp, hv], hv⟩

/-- Claim C7: the syslog transport sub-parsers do not verify that every
required sub-field was seen before building the socket: a `udp` block without
a `port` child, a `tcp` block without a `port` child, and a `tcp` block
without a `blocking` child each parse successfully, and the returned socket
is built from the never-assigned local (`none`). -/
theorem c7_uninitialized_socket_fields :
    parse_syslog_udp [XmlCont.str .SYSLOG_UDP_HOST "localhost"]
        = .ok { hostname := "localhost", port := none } ∧
      parse_syslog_tcp [XmlCont.str .SYSLOG_TCP_HOST "localhost",
          XmlCont.boolv .SYSLOG_TCP_BLOCK true]
        = .ok { hostname := "localhost", port := none, blocking := some true } ∧
      parse_syslog_tcp [XmlCont.str .SYSLOG_TCP_HOST "localhost",
          XmlCont.uint .SYSLOG_TCP_PORT 601]
        = .ok { hostname := "localhost", port := some 601, blocking := none } := by
  refine ⟨rfl, rfl, rfl⟩

/-- Claim C1 counterexample: a kafka output and a syslog output whose `name`
child is the empty string parse successfully — `parse_kafka` and
`parse_syslog` never check name emptiness — contradicting the claim that
every one of the six kinds fails construction on an empty name. -/
theorem c1_counterexample :
    parse_kafka [XmlCont.str .KAFKA_NAME "", XmlCont.str .KAFKA_BROKERS "b",
        XmlCont.str .KAFKA_TOPIC "t"]
      = .ok { cfg_kafka_init with brokers := "b", topic := "t" } ∧
    parse_syslog [XmlCont.str .SYSLOG_NAME "", XmlCont.ctx .SYSLOG_TRANSPORT
        [XmlCont.ctx .SYSLOG_UDP [XmlCont.str .SYSLOG_UDP_HOST "h",
          XmlCont.uint .SYSLOG_UDP_PORT 514]]]
      = .ok { cfg_syslog_init with
          transport := some (.udp { hostname := "h", port := some 514 }) } :=
  ⟨rfl, rfl⟩

/-- Claim C1 (amended): for print, server, send and file outputs, whenever
the child loop finishes with an empty `name` (empty string supplied or name
child absent), parsing fails with "Name of a <kind> output must be defined!";
kafka and syslog outputs perform no such check and an empty name is accepted
(witnessed by concrete runs). -/
theorem c1_name_checks :
    (∀ cs out, parse_print_loop { name := "" } cs = .ok out → out.name = "" →
      parse_print cs = .error ("Name of a <print> output must be defined!")) ∧
    (∀ cs out, parse_server_loop { name := "", port := 0, blocking := false } cs = .ok out →
      out.name = "" →
      parse_server cs = .error ("Name of a <server> output must be defined!")) ∧
    (∀ cs out, parse_send_loop cfg_send_init cs = .ok out → out.name = "" →
      parse_send cs = .error ("Name of a <send> output must be defined!")) ∧
    (∀ cs out, parse_file_loop cfg_file_init cs = .ok out → out.name = "" →
      parse_file cs = .error ("Name of a <file> output must be defined!")) ∧
    parse_kafka [XmlCont.str .KAFKA_NAME "", XmlCont.str .KAFKA_BROKERS "b",
        XmlCont.str .KAFKA_TOPIC "t", XmlCont.str .KAFKA_PARTION "unassigned"]
      = .ok { cfg_kafka_init with brokers := "b", topic := "t" } ∧
    parse_syslog [XmlCont.str .SYSLOG_NAME "", XmlCont.str .SYSLOG_PROGRAM "p",
        XmlCont.ctx .SYSLOG_TRANSPORT [XmlCont.ctx .SYSLOG_UDP
          [XmlCont.str .SYSLOG_UDP_HOST "h", XmlCont.uint .SYSLOG_UDP_PORT 514]]]
      = .ok { cfg_syslog_init with
          program := "p",
          transport := some (.udp { hostname := "h", port := some 514 }) } := by
  refine ⟨?_, ?_, ?_, ?_, rfl, rfl⟩
  · intro cs out h hn
    simp [parse_print, h, hn]
  · intro cs out h hn
    simp [parse_server, h, hn]
  · intro cs out h hn
    simp [parse_send, h, hn]
  · intro cs out h hn
    simp [parse_file, h, hn]

/-- Witness for `c1_name_checks` at concrete inputs (no children at all, so
the name stays the default empty string). -/
theorem c1_name_checks_witness :
    parse_print [] = .error ("Name of a <print> output must be defined!") ∧
    parse_server [] = .error ("Name of a <server> output must be defined!") ∧
    parse_send [] = .error ("Name of a <send> output must be defined!") ∧
    parse_file [] = .error ("Name of a <file> output must be defined!") :=
  ⟨c1_name_checks.1 [] _ rfl rfl,
   c1_name_checks.2.1 [] _ rfl rfl,
   c1_name_checks.2.2.1 [] _ rfl rfl,
   c1_name_checks.2.2.2.1 [] _ rfl rfl⟩

theorem propLookup_eq_none_iff (m : List (String × String)) (k : String) :
    propLookup m k = none ↔ (m.any (fun p => p.1 = k)) = false := by
  induction m with
  | nil => simp [propLookup]
  | cons p t ih =>
    by_cases h : p.1 = k
    · simp [propLookup, List.find?_cons_of_pos, h]
    · simpa [propLookup, List.find?_cons_of_neg, h] using ih

theorem propLookup_append_self (m : List (String × String)) (k v : String)
    (h : (m.any (fun p => p.1 = k)) = false) :
    propLookup (m ++ [(k, v)]) k = some v := by
  induction m with
  | nil => simp [propLookup, List.find?]
  | cons p t ih =>
    simp only [List.any_cons, Bool.or_eq_false_iff] at h
    have hp : ¬ (p.1 = k) := by
      intro hc
      simp [hc] at h
    have ht := ih h.2
    simpa [propLookup, List.cons_append, List.find?_cons_of_neg, hp] using ht

/-- Claim C4: kafka property insertion is first-write-wins.  Inserting a
fresh non-empty key `k` with value `v1` succeeds and maps `k` to `v1`; a
second property block with the same key and a different value leaves the
configuration unchanged (the later value is silently discarded).  A property
whose key is empty fails with the empty-key error.  The closing conjunct runs
the whole `parse_kafka` pipeline on two same-key property blocks and shows
the mapping retains only the first value. -/
theorem c4_kafka_property_first_write_wins :
    (∀ (kafka : cfg_kafka) (k v1 v2 : String), k ≠ "" →
      propLookup kafka.properties k = none →
      ∃ k1, parse_kafka_property kafka
          [XmlCont.str .KAFKA_PROP_KEY k, XmlCont.str .KAFKA_PROP_VALUE v1] = .ok k1 ∧
        propLookup k1.properties k = some v1 ∧
        parse_kafka_property k1
          [XmlCont.str .KAFKA_PROP_KEY k, XmlCont.str .KAFKA_PROP_VALUE v2] = .ok k1) ∧
    (∀ (kafka : cfg_kafka) (v : String),
      parse_kafka_property kafka
          [XmlCont.str .KAFKA_PROP_KEY "", XmlCont.str .KAFKA_PROP_VALUE v]
        = .error ("Property key of a <kafka> output cannot be empty!")) ∧
    parse_kafka [XmlCont.str .KAFKA_NAME "k", XmlCont.str .KAFKA_BROKERS "b",
        XmlCont.str .KAFKA_TOPIC "t",
        XmlCont.ctx .KAFKA_PROPERTY [XmlCont.str .KAFKA_PROP_KEY "key1",
          XmlCont.str .KAFKA_PROP_VALUE "first"],
        XmlCont.ctx .KAFKA_PROPERTY [XmlCont.str .KAFKA_PROP_KEY "key1",
          XmlCont.str .KAFKA_PROP_VALUE "second"]]
      = .ok { cfg_kafka_init with
          name := "k", brokers := "b", topic := "t",
          properties := [("key1", "first")] } := by
  refine ⟨?_, ?_, rfl⟩
  · intro kafka k v1 v2 hk hnone
    have hany := (propLookup_eq_none_iff _ _).mp hnone
    refine ⟨{ kafka with properties := kafka.properties ++ [(k, v1)] }, ?_, ?_, ?_⟩
    · simp [parse_kafka_property, kafka_property_loop, hk, propEmplace, hany]
    · exact propLookup_append_self _ _ _ hany
    · have hany2 : ((kafka.properties ++ [(k, v1)]).any (fun p => p.1 = k)) = true := by
        simp [List.any_append]
      simp [parse_kafka_property, kafka_property_loop, hk, propEmplace, hany2]
  · intro kafka v
    simp [parse_kafka_property, kafka_property_loop]

/-- Witness for `c4_kafka_property_first_write_wins` at a concrete kafka
configuration and key. -/
theorem c4_first_write_wins_witness :
    ∃ k1, parse_kafka_property cfg_kafka_init
        [XmlCont.str .KAFKA_PROP_KEY "key1", XmlCont.str .KAFKA_PROP_VALUE "a"] = .ok k1 ∧
      propLookup k1.properties "key1" = some "a" ∧
      parse_kafka_property k1
        [XmlCont.str .KAFKA_PROP_KEY "key1", XmlCont.str .KAFKA_PROP_VALUE "b"] = .ok k1 :=
  c4_kafka_property_first_write_wins.1 cfg_kafka_init "key1" "a" "b" (by decide) rfl

theorem syslog_transport_loop_some (sock : SyslogSocket) (cs : List XmlCont)
    (r : Option SyslogSocket) (h : syslog_transport_loop (some sock) cs = .ok r) :
    cs = [] := by
  cases cs with
  | nil => rfl
  | cons c rest => simp [syslog_transport_loop] at h

theorem syslog_transport_loop_cons (c : XmlCont) (cs : List XmlCont) :
    (∃ e, syslog_transport_loop none (c :: cs) = .error e) ∨
    (∃ sock, syslog_transport_loop none (c :: cs) = syslog_transport_loop (some sock) cs) := by
  cases c with
  | str id s => exact .inl ⟨_, rfl⟩
  | uint id v => exact .inl ⟨_, rfl⟩
  | boolv id b => exact .inl ⟨_, rfl⟩
  | ctx id sub =>
    cases id
    case SYSLOG_TCP =>
      cases h : parse_syslog_tcp sub with
      | error e => exact .inl ⟨e, by simp [syslog_transport_loop, h]⟩
      | ok t => exact .inr ⟨.tcp t, by simp [syslog_transport_loop, h]⟩
    case SYSLOG_UDP =>
      cases h : parse_syslog_udp sub with
      | error e => exact .inl ⟨e, by simp [syslog_transport_loop, h]⟩
      | ok u => exact .inr ⟨.udp u, by simp [syslog_transport_loop, h]⟩
    all_goals exact .inl ⟨_, rfl⟩

/-- Claim C6: the syslog transport block supplies a socket exactly when it
has a single `tcp` or `udp` child (whose sub-parse succeeds); an empty block
yields no socket and makes `parse_syslog` fail with the missing-transport
error; any second child after a successfully parsed `tcp` or `udp` child
(a second of the same type, one of the other type, or anything else) fails
with "Multiple syslog transport types are not allowed!". -/
theorem c6_transport_oneof :
    (∀ s : cfg_syslog, parse_syslog_transport s [] = .ok { s with transport := none }) ∧
    (∀ (s : cfg_syslog) (sub : List XmlCont) (t : TcpSyslogSocket),
      parse_syslog_tcp sub = .ok t →
      parse_syslog_transport s [XmlCont.ctx .SYSLOG_TCP sub]
        = .ok { s with transport := some (.tcp t) }) ∧
    (∀ (s : cfg_syslog) (sub : List XmlCont) (u : UdpSyslogSocket),
      parse_syslog_udp sub = .ok u →
      parse_syslog_transport s [XmlCont.ctx .SYSLOG_UDP sub]
        = .ok { s with transport := some (.udp u) }) ∧
    (∀ (s : cfg_syslog) (sub : List XmlCont) (t : TcpSyslogSocket) (c2 : XmlCont)
        (rest : List XmlCont), parse_syslog_tcp sub = .ok t →
      parse_syslog_transport s (XmlCont.ctx .SYSLOG_TCP sub :: c2 :: rest)
        = .error ("Multiple syslog transport types are not allowed!")) ∧
    (∀ (s : cfg_syslog) (sub : List XmlCont) (u : UdpSyslogSocket) (c2 : XmlCont)
        (rest : List XmlCont), parse_syslog_udp sub = .ok u →
      parse_syslog_transport s (XmlCont.ctx .SYSLOG_UDP sub :: c2 :: rest)
        = .error ("Multiple syslog transport types are not allowed!")) ∧
    (∀ (s s2 : cfg_syslog) (cs : List XmlCont),
      parse_syslog_transport s cs = .ok s2 → s2.transport.isSome → ∃ c, cs = [c]) ∧
    parse_syslog [XmlCont.str .SYSLOG_NAME "n", XmlCont.ctx .SYSLOG_TRANSPORT []]
      = .error ("Syslog transport type must be defined!") := by
  refine ⟨fun s => rfl, ?_, ?_, ?_, ?_, ?_, rfl⟩
  · intro s sub t h
    simp [parse_syslog_transport, syslog_transport_loop, h]
  · intro s sub u h
    simp [parse_syslog_transport, syslog_transport_loop, h]
  · intro s sub t c2 rest h
    simp [parse_syslog_transport, syslog_transport_loop, h]
  · intro s sub u c2 rest h
    simp [parse_syslog_transport, syslog_transport_loop, h]
  · intro s s2 cs h hsome
    cases cs with
    | nil =>
      exfalso
      simp only [parse_syslog_transport, syslog_transport_loop] at h
      cases h
      simp at hsome
    | cons c rest =>
      cases rest with
      | nil => exact ⟨c, rfl⟩
      | cons c2 rest2 =>
        exfalso
        unfold parse_syslog_transport at h
        rcases syslog_transport_loop_cons c (c2 :: rest2) with ⟨e, he⟩ | ⟨sock, hs⟩
        · rw [he] at h; cases h
        · rw [hs] at h
          cases hl : syslog_transport_loop (some sock) (c2 :: rest2) with
          | error e => rw [hl] at h; cases h
          | ok r => exact absurd (syslog_transport_loop_some _ _ _ hl) (by simp)

/-- Witness for `c6_transport_oneof` at concrete transport blocks. -/
theorem c6_transport_oneof_witness :
    parse_syslog_transport cfg_syslog_init
        [XmlCont.ctx .SYSLOG_UDP [XmlCont.str .SYSLOG_UDP_HOST "h",
            XmlCont.uint .SYSLOG_UDP_PORT 514],
          XmlCont.ctx .SYSLOG_TCP [XmlCont.str .SYSLOG_TCP_HOST "h",
            XmlCont.uint .SYSLOG_TCP_PORT 601, XmlCont.boolv .SYSLOG_TCP_BLOCK true]]
      = .error ("Multiple syslog transport types are not allowed!") ∧
    (∃ c, ([XmlCont.ctx .SYSLOG_UDP [XmlCont.str .SYSLOG_UDP_HOST "h",
        XmlCont.uint .SYSLOG_UDP_PORT 514]] : List XmlCont) = [c]) :=
  ⟨c6_transport_oneof.2.2.2.2.1 cfg_syslog_init _
      { hostname := "h", port := some 514 } _ _ rfl,
    c6_transport_oneof.2.2.2.2.2.1 cfg_syslog_init
      { cfg_syslog_init with transport := some (.udp { hostname := "h", port := some 514 }) }
      _ rfl rfl⟩

/-- Claim C8: a syslog priority block fails with "Both syslog facility and
severity must be set!" whenever the loop leaves either seen-flag unset
(either field never supplied); with both supplied, facility 23 / severity 7
are accepted, facility 24 is rejected with the labeled [0..23] range error
and severity 8 with the labeled [0..7] range error. -/
theorem c8_priority_rules :
    (∀ (s : cfg_syslog) (cs : List XmlCont) (fac sev : Option Nat),
      syslog_priority_loop none none cs = .ok (fac, sev) →
      fac = none ∨ sev = none →
      parse_syslog_priority s cs
        = .error ("Both syslog facility and severity must be set!")) ∧
    (∀ s : cfg_syslog, parse_syslog_priority s
        [XmlCont.uint .SYSLOG_PRI_FACILITY 23, XmlCont.uint .SYSLOG_PRI_SEVERITY 7]
      = .ok { s with priority := { facility := 23, severity := 7 } }) ∧
    (∀ s : cfg_syslog, parse_syslog_priority s
        [XmlCont.uint .SYSLOG_PRI_FACILITY 24, XmlCont.uint .SYSLOG_PRI_SEVERITY 7]
      = .error ("Syslog facility is out of range [0..23]")) ∧
    (∀ s : cfg_syslog, parse_syslog_priority s
        [XmlCont.uint .SYSLOG_PRI_FACILITY 23, XmlCont.uint .SYSLOG_PRI_SEVERITY 8]
      = .error ("Syslog severity is out of range [0..7]")) := by
  refine ⟨?_, ?_, ?_, ?_⟩
  · intro s cs fac sev h hmiss
    unfold parse_syslog_priority
    rw [h]
    rcases hmiss with rfl | rfl
    · rfl
    · cases fac with
      | none => rfl
      | some f => rfl
  · intro s
    simp [parse_syslog_priority, syslog_priority_loop, SYSLOG_FACILITY_MAX,
      SYSLOG_SEVERITY_MAX]
  · intro s
    simp [parse_syslog_priority, syslog_priority_loop, SYSLOG_FACILITY_MAX]
  · intro s
    simp [parse_syslog_priority, syslog_priority_loop, SYSLOG_FACILITY_MAX,
      SYSLOG_SEVERITY_MAX]

/-- Witness for `c8_priority_rules`: a priority block with only a facility
child fails with the both-must-be-set error. -/
theorem c8_priority_rules_witness :
    parse_syslog_priority cfg_syslog_init [XmlCont.uint .SYSLOG_PRI_FACILITY 3]
      = .error ("Both syslog facility and severity must be set!") :=
  c8_priority_rules.1 cfg_syslog_init [XmlCont.uint .SYSLOG_PRI_FACILITY 3]
    (some 3) none rfl (Or.inr rfl)

theorem is_syslog_ascii_iff (s : String) :
    is_syslog_ascii s = true ↔ ∀ c ∈ s.data, 33 ≤ c.toNat ∧ c.toNat ≤ 126 := by
  simp [is_syslog_ascii, List.all_eq_true]

/-- Claim C9: for a syslog output whose child loop succeeded and supplied a
transport, parsing succeeds exactly when every character of `program` has
code point in [33, 126] and the length is at most 48; a 48-character
printable program is accepted, 49 characters are rejected as too long, and a
program containing a space is rejected as invalid. -/
theorem c9_program_rules :
    (∀ (cs : List XmlCont) (out : cfg_syslog),
      parse_syslog_loop cfg_syslog_init cs = .ok out → out.transport.isSome →
      (parse_syslog cs = .ok out ↔
        (∀ c ∈ out.program.data, 33 ≤ c.toNat ∧ c.toNat ≤ 126) ∧
          out.program.length ≤ 48)) ∧
    parse_syslog [XmlCont.str .SYSLOG_PROGRAM (String.mk (List.replicate 48 'a')),
        XmlCont.ctx .SYSLOG_TRANSPORT [XmlCont.ctx .SYSLOG_UDP
          [XmlCont.str .SYSLOG_UDP_HOST "h", XmlCont.uint .SYSLOG_UDP_PORT 514]]]
      = .ok { cfg_syslog_init with
          program := String.mk (List.replicate 48 'a'),
          transport := some (.udp { hostname := "h", port := some 514 }) } ∧
    parse_syslog [XmlCont.str .SYSLOG_PROGRAM (String.mk (List.replicate 49 'a')),
        XmlCont.ctx .SYSLOG_TRANSPORT [XmlCont.ctx .SYSLOG_UDP
          [XmlCont.str .SYSLOG_UDP_HOST "h", XmlCont.uint .SYSLOG_UDP_PORT 514]]]
      = .error ("Too long syslog identifier ''") ∧
    parse_syslog [XmlCont.str .SYSLOG_PROGRAM "a b",
        XmlCont.ctx .SYSLOG_TRANSPORT [XmlCont.ctx .SYSLOG_UDP
          [XmlCont.str .SYSLOG_UDP_HOST "h", XmlCont.uint .SYSLOG_UDP_PORT 514]]]
      = .error ("Invalid syslog identifier ''") := by
  refine ⟨?_, rfl, rfl, rfl⟩
  intro cs out h hsome
  have hnone : out.transport.isNone = false := by
    cases ht : out.transport
    · rw [ht] at hsome; cases hsome
    · simp
  unfold parse_syslog
  rw [h]
  by_cases hascii : is_syslog_ascii out.program = true
  · by_cases hlen : out.program.length ≤ 48
    · have hngt : ¬ out.program.length > SYSLOG_APPNAME_MAX_LEN := by
        simp [SYSLOG_APPNAME_MAX_LEN]; omega
      simp [hnone, hascii, hngt, hlen]
      exact (is_syslog_ascii_iff _).mp hascii
    · have hgt : out.program.length > SYSLOG_APPNAME_MAX_LEN := by
        simp [SYSLOG_APPNAME_MAX_LEN]; omega
      simp [hnone, hascii, hgt, hlen]
  · simp only [hnone, Bool.false_eq_true, if_false, hascii, not_false_iff, if_true]
    constructor
    · intro hc; cases hc
    · rintro ⟨hall, -⟩
      exact absurd (((is_syslog_ascii_iff _).mpr hall)) hascii

/-- Witness for `c9_program_rules` at a concrete syslog output with program
"ab" and a udp transport. -/
theorem c9_program_rules_witness :
    parse_syslog [XmlCont.str .SYSLOG_PROGRAM "ab",
        XmlCont.ctx .SYSLOG_TRANSPORT [XmlCont.ctx .SYSLOG_UDP
          [XmlCont.str .SYSLOG_UDP_HOST "h", XmlCont.uint .SYSLOG_UDP_PORT 514]]]
      = .ok { cfg_syslog_init with
          program := "ab",
          transport := some (.udp { hostname := "h", port := some 514 }) } ↔
      (∀ c ∈ ("ab" : String).data, 33 ≤ c.toNat ∧ c.toNat ≤ 126) ∧
        ("ab" : String).length ≤ 48 :=
  c9_program_rules.1 _ _ rfl rfl

/-- Claim C10: in the kafka child loop, a partition string equal to
"unassigned" under case-insensitive comparison sets the unassigned sentinel;
otherwise the string is scanned as a single base-0 integer: a full-string
scan of a non-negative value `v` (within the `int32` range, whose overflow
behaviour the C `%SCNi32` leaves undefined) stores `v`, a negative value,
leftover characters after the scanned integer, or a failed scan each abort
with "Invalid partition number of a <kafka> output!". -/
theorem c10_kafka_partition :
    (∀ (out : cfg_kafka) (s : String) (rest : List XmlCont),
      strcaseeq s "unassigned" = true →
      parse_kafka_loop out (XmlCont.str .KAFKA_PARTION s :: rest)
        = parse_kafka_loop { out with partition := RD_KAFKA_PARTITION_UA } rest) ∧
    (∀ (out : cfg_kafka) (s : String) (rest : List XmlCont) (v : Int),
      strcaseeq s "unassigned" = false → scan_i s.data = some (v, []) →
      0 ≤ v → v ≤ 2147483647 →
      parse_kafka_loop out (XmlCont.str .KAFKA_PARTION s :: rest)
        = parse_kafka_loop { out with partition := v } rest) ∧
    (∀ (out : cfg_kafka) (s : String) (rest : List XmlCont) (v : Int),
      strcaseeq s "unassigned" = false → scan_i s.data = some (v, []) → v < 0 →
      parse_kafka_loop out (XmlCont.str .KAFKA_PARTION s :: rest)
        = .error ("Invalid partition number of a <kafka> output!")) ∧
    (∀ (out : cfg_kafka) (s : String) (rest : List XmlCont) (v : Int) (c : Char)
        (cs2 : List Char),
      strcaseeq s "unassigned" = false → scan_i s.data = some (v, c :: cs2) →
      parse_kafka_loop out (XmlCont.str .KAFKA_PARTION s :: rest)
        = .error ("Invalid partition number of a <kafka> output!")) ∧
    (∀ (out : cfg_kafka) (s : String) (rest : List XmlCont),
      strcaseeq s "unassigned" = false → scan_i s.data = none →
      parse_kafka_loop out (XmlCont.str .KAFKA_PARTION s :: rest)
        = .error ("Invalid partition number of a <kafka> output!")) := by
  refine ⟨?_, ?_, ?_, ?_, ?_⟩
  · intro out s rest hu
    simp [parse_kafka_loop, hu]
  · intro out s rest v hu hscan hnn hbound
    have hv : ¬ v < 0 := by omega
    simp [parse_kafka_loop, hu, kafka_scan_partition, hscan, hv]
  · intro out s rest v hu hscan hv
    simp [parse_kafka_loop, hu, kafka_scan_partition, hscan, hv]
  · intro out s rest v c cs2 hu hscan
    simp [parse_kafka_loop, hu, kafka_scan_partition, hscan]
  · intro out s rest hu hscan
    simp [parse_kafka_loop, hu, kafka_scan_partition, hscan]

/-- Witness for `c10_kafka_partition` at concrete partition strings
("UnAssigned", "42", "-7", "7x", "zz"). -/
theorem c10_kafka_partition_witness :
    parse_kafka_loop cfg_kafka_init [XmlCont.str .KAFKA_PARTION "UnAssigned"]
        = parse_kafka_loop { cfg_kafka_init with partition := RD_KAFKA_PARTITION_UA } [] ∧
      parse_kafka_loop cfg_kafka_init [XmlCont.str .KAFKA_PARTION "42"]
        = parse_kafka_loop { cfg_kafka_init with partition := 42 } [] ∧
      parse_kafka_loop cfg_kafka_init [XmlCont.str .KAFKA_PARTION "-7"]
        = .error ("Invalid partition number of a <kafka> output!") ∧
      parse_kafka_loop cfg_kafka_init [XmlCont.str .KAFKA_PARTION "7x"]
        = .error ("Invalid partition number of a <kafka> output!") ∧
      parse_kafka_loop cfg_kafka_init [XmlCont.str .KAFKA_PARTION "zz"]
        = .error ("Invalid partition number of a <kafka> output!") :=
  ⟨c10_kafka_partition.1 cfg_kafka_init "UnAssigned" [] (by decide),
    c10_kafka_partition.2.1 cfg_kafka_init "42" [] 42 (by decide) rfl (by decide) (by decide),
    c10_kafka_partition.2.2.1 cfg_kafka_init "-7" [] (-7) (by decide) rfl (by decide),
    c10_kafka_partition.2.2.2.1 cfg_kafka_init "7x" [] 7 'x' [] (by decide) rfl,
    c10_kafka_partition.2.2.2.2 cfg_kafka_init "zz" [] (by decide) rfl⟩

/-- Claim C5 counterexample: the string " 1.2" begins with a character that
is not part of any dot-separated integer field, yet `parse_version` accepts
it (stream numeric extraction skips leading whitespace), contradicting the
claim that `parse_version` accepts exactly the strings with no leading,
trailing or extra characters. -/
theorem c5_counterexample : parse_version " 1.2" = some [1, 2, 0, 0] := rfl

theorem pv_go_length : ∀ (fuel : Nat) (first : Bool) (buf : List Char) (acc : List Int)
    (r : List Int), pv_go fuel first buf acc = some r →
    acc.length ≤ r.length ∧ r.length ≤ acc.length + fuel := by
  intro fuel
  induction fuel with
  | zero =>
    intro first buf acc r h
    unfold pv_go at h
    by_cases hb : buf.isEmpty
    · rw [if_pos hb] at h
      cases h
      omega
    · rw [if_neg hb] at h
      cases h
  | succ f ih =>
    intro first buf acc r h
    unfold pv_go at h
    by_cases he : ¬ first = true ∧ buf.isEmpty = true
    · rw [if_pos he] at h
      cases h
      omega
    · rw [if_neg he] at h
      cases hstep : pv_dot first buf with
      | none => rw [hstep] at h; cases h
      | some b1 =>
        rw [hstep] at h
        dsimp only at h
        cases hext : extract_int b1 with
        | none => rw [hext] at h; cases h
        | some p =>
          rw [hext] at h
          dsimp only at h
          obtain ⟨v, rest2⟩ := p
          by_cases hv : v < 0
          · rw [if_pos hv] at h; cases h
          · rw [if_neg hv] at h
            have hr := ih false rest2 (acc ++ [v]) r h
            simp only [List.length_append, List.length_cons, List.length_nil] at hr
            omega

/-- Claim C5 (amended): `parse_version` accepts 2 to 4 dot-separated integer
fields where each field is read by stream numeric extraction, so whitespace
immediately before a field is skipped and an optional sign is allowed as
long as the parsed value is non-negative; the claim's concrete cases hold
("1.2" → [1,2,0,0], "1.2.3.4" → [1,2,3,4]; "1.2.3.4.5", "abc" and "1" are
format errors, as are negative fields, trailing garbage and malformed
separators), the fields beyond those supplied default to 0, and every
accepted result has exactly 4 entries; but strings such as " 1.2", "1. 2",
"+1.2" and "1.-0" are additionally accepted. -/
theorem c5_parse_version :
    parse_version "1.2" = some [1, 2, 0, 0] ∧
    parse_version "1.2.3.4" = some [1, 2, 3, 4] ∧
    parse_version "1.2.3.4.5" = none ∧
    parse_version "abc" = none ∧
    parse_version "1" = none ∧
    parse_version "1.2.3" = some [1, 2, 3, 0] ∧
    parse_version " 1.2" = some [1, 2, 0, 0] ∧
    parse_version "1. 2" = some [1, 2, 0, 0] ∧
    parse_version "+1.2" = some [1, 2, 0, 0] ∧
    parse_version "1.-0" = some [1, 0, 0, 0] ∧
    parse_version "-1.2" = none ∧
    parse_version "1.2x" = none ∧
    parse_version "1..2" = none ∧
    parse_version "1,2" = none ∧
    parse_version "1.2 " = none ∧
    (∀ (s : String) (r : List Int), parse_version s = some r → r.length = 4) := by
  refine ⟨rfl, rfl, rfl, rfl, rfl, rfl, rfl, rfl, rfl, rfl, rfl, rfl, rfl, rfl, rfl, ?_⟩
  intro s r h
  unfold parse_version at h
  split at h
  · cases h
  · rename_i acc hacc
    split at h
    · cases h
    · cases h
      have hb := pv_go_length 4 true s.data [] acc hacc
      simp only [List.length_nil] at hb
      simp only [List.length_append, List.length_replicate]
      omega

/-- Witness for `c5_parse_version` (its universally quantified conjunct) at
the concrete accepted input "1.2". -/
theorem c5_parse_version_witness : (([1, 2, 0, 0] : List Int)).length = 4 :=
  c5_parse_version.2.2.2.2.2.2.2.2.2.2.2.2.2.2.2 "1.2" [1, 2, 0, 0] rfl
